import Mathlib

/-!
Shallow embedding of the Hourly Raffle backend (`src/main.py`, `src/schemas.py`).

The store is modelled as an explicit state (lists of `entry` and `draw`
documents plus a fresh-id counter); each endpoint of `main.py` becomes a pure
function from a request and a store state to an `Except`-wrapped response and
next state (raising `HTTPException` = returning `.error`, so an error writes
nothing, matching the Python control flow where the raise aborts before any
write that follows it).  Wall-clock time is threaded as an explicit `UTCTime`
argument (`datetime.now(timezone.utc)`), and the one call to `random.choice`
is modelled by an explicit uniformly-random index argument.
-/

namespace Raffle

/-- A UTC instant at second granularity, the part of `datetime` the code reads
(`strftime("%Y%m%d%H")` and `replace(minute=0, second=0, microsecond=0)`;
microseconds never influence any modelled field). -/
structure UTCTime where
  year : Nat
  month : Nat
  day : Nat
  hour : Nat
  minute : Nat
  second : Nat
deriving DecidableEq, Repr

/-- Gregorian leap-year rule, as implemented by Python's `datetime`. -/
def isLeap (y : Nat) : Bool :=
  (y % 4 == 0 && y % 100 != 0) || y % 400 == 0

/-- Days in a month of the proleptic Gregorian calendar. -/
def daysInMonth (y m : Nat) : Nat :=
  if m == 2 then (if isLeap y then 29 else 28)
  else if m == 4 || m == 6 || m == 9 || m == 11 then 30
  else 31

/-- The instants representable by Python `datetime` (year 1..9999, fields in
calendar range). -/
def ValidTime (t : UTCTime) : Prop :=
  1 ≤ t.year ∧ t.year ≤ 9999 ∧ 1 ≤ t.month ∧ t.month ≤ 12 ∧
  1 ≤ t.day ∧ t.day ≤ daysInMonth t.year t.month ∧
  t.hour ≤ 23 ∧ t.minute ≤ 59 ∧ t.second ≤ 59

instance (t : UTCTime) : Decidable (ValidTime t) := by
  unfold ValidTime; infer_instance

/-- `dt.replace(minute=0, second=0, microsecond=0)` (line 44 of `main.py`). -/
def truncHour (t : UTCTime) : UTCTime :=
  { t with minute := 0, second := 0 }

/-- `start + timedelta(hours=1)` on a top-of-hour instant (line 45), with
calendar rollover. -/
def addOneHour (t : UTCTime) : UTCTime :=
  if t.hour < 23 then { t with hour := t.hour + 1 }
  else if t.day < daysInMonth t.year t.month then
    { t with hour := 0, day := t.day + 1 }
  else if t.month < 12 then
    { t with hour := 0, day := 1, month := t.month + 1 }
  else
    { t with hour := 0, day := 1, month := 1, year := t.year + 1 }

/-- Two instants lie in the same UTC clock-hour. -/
def sameHour (t₁ t₂ : UTCTime) : Prop :=
  t₁.year = t₂.year ∧ t₁.month = t₂.month ∧ t₁.day = t₂.day ∧ t₁.hour = t₂.hour

instance (t₁ t₂ : UTCTime) : Decidable (sameHour t₁ t₂) := by
  unfold sameHour; infer_instance

/-- Zero-padded two-digit decimal rendering (`%m`, `%d`, `%H`). -/
def pad2 (n : Nat) : List Char :=
  [Nat.digitChar (n / 10), Nat.digitChar (n % 10)]

/-- Zero-padded four-digit decimal rendering (`%Y`, documented as `0001..9999`). -/
def pad4 (n : Nat) : List Char :=
  pad2 (n / 100) ++ pad2 (n % 100)

/-- Character list underlying `strftime("%Y%m%d%H")`. -/
def drawIdChars (t : UTCTime) : List Char :=
  pad4 t.year ++ (pad2 t.month ++ (pad2 t.day ++ pad2 t.hour))

/-- `current_draw_id` (lines 37-39): format the UTC instant as `YYYYMMDDHH`. -/
def current_draw_id (t : UTCTime) : String :=
  ⟨drawIdChars t⟩

/-- `hour_window` (lines 42-46): start of the hour and start of the next hour. -/
def hour_window (t : UTCTime) : UTCTime × UTCTime :=
  (truncHour t, addOneHour (truncHour t))

/-- An `entry` document (`schemas.Entry` plus the Mongo `_id` assigned by
`create_document`, modelled as a fresh natural number). `created_at` and
`updated_at` carry no logic and are omitted. -/
structure Entry where
  id : Nat
  name : String
  email : String
  draw_id : String
deriving DecidableEq, Repr

/-- A `draw` document (`schemas.Draw`).  `prize` is the dollar amount (always
1000 in the code); `created_at`/`updated_at` timestamps are omitted (no logic
reads them). -/
structure Draw where
  draw_id : String
  starts_at : UTCTime
  ends_at : UTCTime
  status : String
  prize : Nat
  entries_count : Nat
  winner_entry_id : Option Nat
  winner_name : Option String
  winner_email : Option String
deriving DecidableEq, Repr

/-- The document store: the `entry` and `draw` collections in insertion order,
plus the counter handing out fresh `_id`s. -/
structure DB where
  entries : List Entry
  draws : List Draw
  nextId : Nat
deriving DecidableEq, Repr

/-- An aborted request: `HTTPException(status_code, detail)`. -/
structure HTTPError where
  status_code : Nat
  detail : String
deriving DecidableEq, Repr

/-- `db["entry"].find_one({"draw_id": d, "email": email})`: first matching
entry in insertion order. -/
def findEntry (db : DB) (d email : String) : Option Entry :=
  db.entries.find? (fun e => e.draw_id == d && e.email == email)

/-- Number of stored entries for a given `(draw_id, email)` pair. -/
def countEntries (db : DB) (d email : String) : Nat :=
  (db.entries.filter (fun e => e.draw_id == d && e.email == email)).length

/-- Entries loaded for a draw: `list(db["entry"].find({"draw_id": d}))`
(line 138), in insertion order. -/
def entriesFor (db : DB) (d : String) : List Entry :=
  db.entries.filter (fun e => e.draw_id == d)

/-- Replace the first draw document matching `d` (Mongo `update_one` touches
the first match only); no match leaves the list unchanged. -/
def replaceFirstDraw : List Draw → String → (Draw → Draw) → List Draw
  | [], _, _ => []
  | x :: xs, d, f => if x.draw_id == d then f x :: xs else x :: replaceFirstDraw xs d f

/-- `db["draw"].update_one({"draw_id": d}, {"$set": nd}, upsert=True)` where the
`$set` covers every modelled field: replace the first match, or insert. -/
def upsertDrawFull (db : DB) (d : String) (nd : Draw) : DB :=
  if db.draws.any (fun x => x.draw_id == d) then
    { db with draws := replaceFirstDraw db.draws d (fun _ => nd) }
  else
    { db with draws := db.draws ++ [nd] }

/-- `create_document`: append the document, hand out the next `_id`. -/
def insertEntry (db : DB) (name email d : String) : Nat × DB :=
  (db.nextId,
   { db with entries := db.entries ++ [⟨db.nextId, name, email, d⟩],
             nextId := db.nextId + 1 })

/-- Response of `POST /api/enter` (line 126). -/
structure EnterResponse where
  ok : Bool
  message : String
  entry_id : Nat
  draw_id : String
deriving DecidableEq, Repr

/-- `enter_draw` (lines 111-126).  `paymentsEnabled` models
`STRIPE_SECRET_KEY and stripe`; the duplicate pre-check is an exact string
match on the submitted (validator-normalised) email. -/
def enter_draw (paymentsEnabled : Bool) (t : UTCTime) (name email : String)
    (db : DB) : Except HTTPError (EnterResponse × DB) :=
  if paymentsEnabled then
    .error ⟨403, "El portal de pagos está activo. Usa el flujo de pago para participar."⟩
  else
    let draw_id := current_draw_id t
    match findEntry db draw_id email with
    | some _ => .error ⟨400, "Ya estás participando en el sorteo de esta hora."⟩
    | none =>
      let (eid, db1) := insertEntry db name email draw_id
      .ok (⟨true, "¡Entraste al sorteo de esta hora!", eid, draw_id⟩, db1)

/-- Response of `POST /api/close-current` (lines 157 and 178-181): `winner` is
present exactly when a winner was picked, carrying `(name, email)`. -/
structure CloseResponse where
  ok : Bool
  message : String
  winner : Option (String × String)
deriving DecidableEq, Repr

/-- `close_current_draw` (lines 129-181).  `k` is the uniformly-random index
drawn by `random.choice(entries)`; the store is assumed available (the
`db is None` 500-branch writes nothing and is outside the modelled states). -/
def close_current_draw (t : UTCTime) (k : Nat) (db : DB) : CloseResponse × DB :=
  let draw_id := current_draw_id t
  let w := hour_window t
  let entries := entriesFor db draw_id
  match entries with
  | [] =>
    let nd : Draw := ⟨draw_id, w.1, w.2, "closed", 1000, 0, none, none, none⟩
    (⟨true, "Sorteo cerrado sin participantes.", none⟩, upsertDrawFull db draw_id nd)
  | e :: rest =>
    let winner := (e :: rest).getD (k % (e :: rest).length) e
    let nd : Draw := ⟨draw_id, w.1, w.2, "closed", 1000, (e :: rest).length,
                      some winner.id, some winner.name, some winner.email⟩
    (⟨true, "Sorteo cerrado y ganador elegido.", some (winner.name, winner.email)⟩,
     upsertDrawFull db draw_id nd)

/-- The slice of the `GET /api/status` response the modelled claims read
(`current.draw_id`, `current.status`, `current.entries_count`); the
`last_winner` projection and the payments block are read-only and unmodelled. -/
structure StatusView where
  draw_id : String
  status : String
  entries_count : Nat
deriving DecidableEq, Repr

/-- `api_status` (lines 61-108), store effects only: lazily materialise an
`open` draw for the current hour if none exists (lines 68-80), then recount the
hour's entries and write `entries_count` back onto the first matching draw
document (lines 82-85; after the materialisation step a match always exists,
so the upsert's insert branch is dead and `replaceFirstDraw` is exact). -/
def api_status (t : UTCTime) (db : DB) : StatusView × DB :=
  let draw_id := current_draw_id t
  let w := hour_window t
  let db1 :=
    if db.draws.any (fun x => x.draw_id == draw_id) then db
    else { db with draws := db.draws ++ [⟨draw_id, w.1, w.2, "open", 1000, 0, none, none, none⟩] }
  let c := (entriesFor db1 draw_id).length
  let db2 := { db1 with draws := replaceFirstDraw db1.draws draw_id (fun x => { x with entries_count := c }) }
  let status := ((db1.draws.find? (fun x => x.draw_id == draw_id)).map Draw.status).getD "open"
  (⟨draw_id, status, c⟩, db2)

/-- Stripe checkout-session `metadata` dict: string-valued keys that may be
absent. -/
structure SessionMetadata where
  draw_id : Option String
  name : Option String
  email : Option String
deriving DecidableEq, Repr

/-- The slice of a Stripe checkout session the code reads back:
`payment_status` and `metadata`. -/
structure CheckoutSession where
  payment_status : String
  metadata : SessionMetadata
deriving DecidableEq, Repr

/-- Python truthiness for an optional string: `None` and `""` are falsy. -/
def pyTruthy : Option String → Option String
  | some s => if s == "" then none else some s
  | none => none

/-- `meta.get(key) or fallback` (line 232): the fallback replaces a missing or
empty value. -/
def pyOr (o : Option String) (fallback : String) : String :=
  match pyTruthy o with
  | some s => s
  | none => fallback

/-- `create_checkout_session` (lines 185-218): gate check, duplicate pre-check
against the draw current at checkout time, then remote session creation with
`{draw_id, name, email}` embedded as metadata.  The returned session is the
remote record just created (its `payment_status` starts out unpaid); the local
store is untouched. -/
def create_checkout_session (stripeEnabled : Bool) (t : UTCTime)
    (name email : String) (db : DB) : Except HTTPError CheckoutSession :=
  if !stripeEnabled then
    .error ⟨503, "Pagos no disponibles"⟩
  else
    let draw_id := current_draw_id t
    match findEntry db draw_id email with
    | some _ => .error ⟨400, "Ya estás participando en el sorteo de esta hora."⟩
    | none => .ok ⟨"unpaid", ⟨some draw_id, some name, some email⟩⟩

/-- Response of `GET /api/pay/confirm` (lines 240 and 244): `entry_id` and
`draw_id` are present only when a new entry was created. -/
structure ConfirmResponse where
  ok : Bool
  message : String
  entry_id : Option Nat
  draw_id : Option String
deriving DecidableEq, Repr

/-- `confirm_checkout` (lines 221-248): requires the gate and a `paid` session;
takes `draw_id` from metadata with fallback to the hour current at confirmation
(line 232); rejects a missing/empty name or email (lines 233-236); returns
success without writing when an entry for `(draw_id, email)` already exists
(lines 238-240); otherwise creates the entry from the metadata. -/
def confirm_checkout (stripeEnabled : Bool) (t : UTCTime)
    (session : CheckoutSession) (db : DB) : Except HTTPError (ConfirmResponse × DB) :=
  if !stripeEnabled then
    .error ⟨503, "Pagos no disponibles"⟩
  else if session.payment_status != "paid" then
    .error ⟨402, "Pago no completado"⟩
  else
    let meta := session.metadata
    let draw_id := pyOr meta.draw_id (current_draw_id t)
    match pyTruthy meta.name, pyTruthy meta.email with
    | some name, some email =>
      if (findEntry db draw_id email).isSome then
        .ok (⟨true, "Pago confirmado. Ya estabas registrado en este sorteo.", none, none⟩, db)
      else
        let (eid, db1) := insertEntry db name email draw_id
        .ok (⟨true, "Pago confirmado y participación registrada.", some eid, some draw_id⟩, db1)
    | _, _ => .error ⟨400, "Datos de participante incompletos"⟩

/-- The store state after a call to `confirm_checkout` (an error writes
nothing). -/
def confirmState (stripeEnabled : Bool) (t : UTCTime) (session : CheckoutSession)
    (db : DB) : DB :=
  match confirm_checkout stripeEnabled t session db with
  | .ok (_, db1) => db1
  | .error _ => db

/-- `n` successive calls to `confirm_checkout` for the same session, threading
the store. -/
def iterConfirm (stripeEnabled : Bool) (t : UTCTime) (session : CheckoutSession) :
    Nat → DB → DB
  | 0, db => db
  | n + 1, db => iterConfirm stripeEnabled t session n (confirmState stripeEnabled t session db)

/-- The store state after a call to `enter_draw` (an error writes nothing). -/
def enterState (paymentsEnabled : Bool) (t : UTCTime) (name email : String)
    (db : DB) : DB :=
  match enter_draw paymentsEnabled t name email db with
  | .ok (_, db1) => db1
  | .error _ => db

/-- Spec-side definition, following the spec's words ("case/format-normalized"
email identity, §3): two submitted email strings denote the same address when
they agree up to letter case.  The source performs no such normalisation; this
definition exists only to compare the spec's duplicate criterion with the
code's exact-string criterion. -/
def specNormalizeEmail (email : String) : String :=
  ⟨email.data.map Char.toLower⟩

/-- At most one stored entry per `(draw_id, email)` pair — the code-level
uniqueness invariant of the `entry` collection. -/
def atMostOnePerEmail (db : DB) : Prop :=
  ∀ d email : String, countEntries db d email ≤ 1

end Raffle

namespace Raffle

/-! Helper lemmas about the `YYYYMMDDHH` identifier and lexicographic string
order. -/

theorem digitChar_lt_digitChar :
    ∀ a < 10, ∀ b < 10, a < b → Nat.digitChar a < Nat.digitChar b := by
  decide

theorem lex_append_left (p : List Char) {a b : List Char}
    (h : List.Lex (· < ·) a b) : List.Lex (· < ·) (p ++ a) (p ++ b) := by
  induction p with
  | nil => exact h
  | cons c cs ih => exact List.Lex.cons ih

theorem lex_append_of_length_eq {a b : List Char}
    (h : List.Lex (· < ·) a b) (hlen : a.length = b.length) (c d : List Char) :
    List.Lex (· < ·) (a ++ c) (b ++ d) := by
  induction h with
  | nil => simp at hlen
  | rel h => exact List.Lex.rel h
  | cons h ih => exact List.Lex.cons (ih (by simpa using hlen))

theorem pad2_lex {a b : Nat} (hb : b ≤ 99) (hab : a < b) :
    List.Lex (· < ·) (pad2 a) (pad2 b) := by
  have hd : a / 10 ≤ b / 10 := Nat.div_le_div_right (Nat.le_of_lt hab)
  rcases Nat.lt_or_ge (a / 10) (b / 10) with h | h
  · exact List.Lex.rel (digitChar_lt_digitChar _ (by omega) _ (by omega) h)
  · have hdd : a / 10 = b / 10 := le_antisymm hd h
    have hmod : a % 10 < b % 10 := by omega
    unfold pad2
    rw [hdd]
    exact List.Lex.cons (List.Lex.rel (digitChar_lt_digitChar _ (by omega) _ (by omega) hmod))

theorem pad2_length (n : Nat) : (pad2 n).length = 2 := rfl

theorem pad4_length (n : Nat) : (pad4 n).length = 4 := rfl

theorem pad4_lex {a b : Nat} (hb : b ≤ 9999) (hab : a < b) :
    List.Lex (· < ·) (pad4 a) (pad4 b) := by
  have h1 : a / 100 ≤ b / 100 := Nat.div_le_div_right (Nat.le_of_lt hab)
  rcases Nat.lt_or_ge (a / 100) (b / 100) with h | h
  · exact lex_append_of_length_eq (pad2_lex (by omega) h) (by rw [pad2_length, pad2_length]) _ _
  · have hdd : a / 100 = b / 100 := le_antisymm h1 h
    unfold pad4
    rw [hdd]
    exact lex_append_left _ (pad2_lex (by omega) (by omega))

theorem daysInMonth_le (y m : Nat) : daysInMonth y m ≤ 31 := by
  unfold daysInMonth
  split_ifs <;> omega

theorem draw_id_congr (t₁ t₂ : UTCTime) (h : sameHour t₁ t₂) :
    current_draw_id t₁ = current_draw_id t₂ := by
  obtain ⟨h1, h2, h3, h4⟩ := h
  unfold current_draw_id drawIdChars
  rw [h1, h2, h3, h4]

theorem validTime_truncHour {t : UTCTime} (h : ValidTime t) :
    ValidTime (truncHour t) := by
  obtain ⟨a, b, c, d, e, f, g, _, _⟩ := h
  exact ⟨a, b, c, d, e, f, g, by norm_num [truncHour], by norm_num [truncHour]⟩

theorem drawIdChars_lex_addOneHour (u : UTCTime) (hu : ValidTime u)
    (hnext : (addOneHour u).year ≤ 9999) :
    List.Lex (· < ·) (drawIdChars u) (drawIdChars (addOneHour u)) := by
  obtain ⟨y, mo, da, ho, mi, se⟩ := u
  obtain ⟨h1y, h2y, h1m, h2m, h1d, h2d, hh, _, _⟩ := hu
  dsimp only at h1y h2y h1m h2m h1d h2d hh
  have hdim := daysInMonth_le y mo
  unfold addOneHour at hnext ⊢
  dsimp only at hnext ⊢
  by_cases hc1 : ho < 23
  · rw [if_pos hc1]
    unfold drawIdChars
    dsimp only
    exact lex_append_left _ (lex_append_left _ (lex_append_left _
      (pad2_lex (by omega) (by omega))))
  · rw [if_neg hc1]
    by_cases hc2 : da < daysInMonth y mo
    · rw [if_pos hc2]
      unfold drawIdChars
      dsimp only
      exact lex_append_left _ (lex_append_left _
        (lex_append_of_length_eq (pad2_lex (by omega) (by omega))
          (by rw [pad2_length, pad2_length]) _ _))
    · rw [if_neg hc2]
      by_cases hc3 : mo < 12
      · rw [if_pos hc3]
        unfold drawIdChars
        dsimp only
        exact lex_append_left _
          (lex_append_of_length_eq (pad2_lex (by omega) (by omega))
            (by rw [pad2_length, pad2_length]) _ _)
      · rw [if_neg hc3]
        rw [if_neg hc1, if_neg hc2, if_neg hc3] at hnext
        dsimp only at hnext
        unfold drawIdChars
        dsimp only
        exact lex_append_of_length_eq (pad4_lex (by omega) (by omega))
          (by rw [pad4_length, pad4_length]) _ _

theorem draw_id_lt_of_addOneHour {t₃ t₄ : UTCTime} (h3 : ValidTime t₃)
    (h4 : ValidTime t₄) (h34 : sameHour t₄ (addOneHour (truncHour t₃))) :
    current_draw_id t₃ < current_draw_id t₄ := by
  have e3 : current_draw_id t₃ = current_draw_id (truncHour t₃) :=
    draw_id_congr _ _ ⟨rfl, rfl, rfl, rfl⟩
  have e4 : current_draw_id t₄ = current_draw_id (addOneHour (truncHour t₃)) :=
    draw_id_congr _ _ h34
  have hy : (addOneHour (truncHour t₃)).year ≤ 9999 := by
    rw [← h34.1]; exact h4.2.1
  have hlex := drawIdChars_lex_addOneHour (truncHour t₃) (validTime_truncHour h3) hy
  rw [e3, e4, String.lt_iff_toList_lt]
  show List.Lex (· < ·) (drawIdChars (truncHour t₃)) (drawIdChars (addOneHour (truncHour t₃)))
  exact hlex

/-- C8: two instants in the same UTC clock-hour yield the same draw id, and an
instant in the immediately following clock-hour yields a different draw id that
compares strictly greater (string comparison). -/
theorem draw_id_same_hour_eq_next_hour_gt (t₁ t₂ t₃ t₄ : UTCTime)
    (h12 : sameHour t₁ t₂) (h3 : ValidTime t₃) (h4 : ValidTime t₄)
    (h34 : sameHour t₄ (addOneHour (truncHour t₃))) :
    current_draw_id t₁ = current_draw_id t₂ ∧
    current_draw_id t₃ ≠ current_draw_id t₄ ∧
    current_draw_id t₃ < current_draw_id t₄ := by
  have hlt := draw_id_lt_of_addOneHour h3 h4 h34
  exact ⟨draw_id_congr _ _ h12, ne_of_lt hlt, hlt⟩

/-- Witness for C8 at concrete instants, including a year rollover. -/
theorem draw_id_same_hour_eq_next_hour_gt_witness :
    current_draw_id ⟨2024, 6, 1, 13, 5, 0⟩ = current_draw_id ⟨2024, 6, 1, 13, 59, 59⟩ ∧
    current_draw_id ⟨2024, 12, 31, 23, 10, 0⟩ ≠ current_draw_id ⟨2025, 1, 1, 0, 0, 0⟩ ∧
    current_draw_id ⟨2024, 12, 31, 23, 10, 0⟩ < current_draw_id ⟨2025, 1, 1, 0, 0, 0⟩ :=
  draw_id_same_hour_eq_next_hour_gt ⟨2024, 6, 1, 13, 5, 0⟩ ⟨2024, 6, 1, 13, 59, 59⟩
    ⟨2024, 12, 31, 23, 10, 0⟩ ⟨2025, 1, 1, 0, 0, 0⟩
    (by decide) (by decide) (by decide) (by decide)

/-! Helper lemmas about the store operations. -/

theorem find?_replaceFirst_const (l : List Draw) (d : String) (nd : Draw)
    (hany : l.any (fun x => x.draw_id == d) = true) (hnd : nd.draw_id = d) :
    (replaceFirstDraw l d (fun _ => nd)).find? (fun x => x.draw_id == d) = some nd := by
  induction l with
  | nil => simp at hany
  | cons x xs ih =>
    unfold replaceFirstDraw
    by_cases hx : x.draw_id = d
    · rw [if_pos (by simpa using hx)]
      rw [List.find?_cons_of_pos _ (by simp [hnd])]
    · rw [if_neg (by simpa using hx)]
      rw [List.find?_cons_of_neg _ (by simpa using hx)]
      apply ih
      simpa [hx] using hany

theorem find?_upsertDrawFull (db : DB) (d : String) (nd : Draw) (hnd : nd.draw_id = d) :
    ((upsertDrawFull db d nd).draws.find? (fun x => x.draw_id == d)) = some nd := by
  unfold upsertDrawFull
  by_cases h : db.draws.any (fun x => x.draw_id == d) = true
  · rw [if_pos h]
    exact find?_replaceFirst_const _ _ _ h hnd
  · rw [if_neg h]
    dsimp only
    rw [List.find?_append]
    have hnone : db.draws.find? (fun x => x.draw_id == d) = none := by
      rw [List.find?_eq_none]
      intro x hx hpx
      exact h (List.any_eq_true.mpr ⟨x, hx, hpx⟩)
    rw [hnone]
    rw [Option.none_or]
    rw [List.find?_cons_of_pos _ (by simp [hnd])]

theorem countEntries_insert (db : DB) (name email d d₂ em₂ : String) :
    countEntries (insertEntry db name email d).2 d₂ em₂ =
      countEntries db d₂ em₂ + (if d = d₂ ∧ email = em₂ then 1 else 0) := by
  unfold countEntries insertEntry
  dsimp only
  rw [List.filter_append, List.length_append]
  by_cases h1 : d = d₂ <;> by_cases h2 : email = em₂
  · subst h1; subst h2; simp [List.filter]
  · have hb : (email == em₂) = false := beq_eq_false_iff_ne.mpr h2
    subst h1
    simp [List.filter, hb, h2]
  · have hb : (d == d₂) = false := beq_eq_false_iff_ne.mpr h1
    subst h2
    simp [List.filter, hb, h1]
  · have hb : (d == d₂) = false := beq_eq_false_iff_ne.mpr h1
    simp [List.filter, hb, h1, h2]

theorem findEntry_eq_none_iff (db : DB) (d em : String) :
    findEntry db d em = none ↔ countEntries db d em = 0 := by
  unfold findEntry countEntries
  rw [List.find?_eq_none, List.length_eq_zero, List.filter_eq_nil_iff]

theorem findEntry_isSome_iff (db : DB) (d em : String) :
    (findEntry db d em).isSome ↔ 0 < countEntries db d em := by
  rcases h : findEntry db d em with _ | e
  · rw [findEntry_eq_none_iff] at h
    simp [h]
  · have he : e ∈ db.entries ∧ (e.draw_id == d && e.email == em) = true := by
      have h1 := List.mem_of_find?_eq_some h
      have h2 := List.find?_some h
      exact ⟨h1, h2⟩
    simp only [Option.isSome_some, true_iff]
    unfold countEntries
    rw [List.length_pos]
    intro hemp
    have : e ∈ db.entries.filter (fun e => e.draw_id == d && e.email == em) :=
      List.mem_filter.mpr he
    rw [hemp] at this
    simp at this

theorem findEntry_insert_same (db : DB) (nm em d : String)
    (h0 : findEntry db d em = none) :
    findEntry (insertEntry db nm em d).2 d em = some ⟨db.nextId, nm, em, d⟩ := by
  unfold findEntry at h0
  unfold findEntry insertEntry
  dsimp only
  rw [List.find?_append, h0, Option.none_or]
  rw [List.find?_cons_of_pos _ (by simp)]

/-- C7: closing a draw with zero entries for its draw id records status=closed,
entries_count=0, null winner fields, with window and prize set; no winner is
selected and the response reports closure without a winner. -/
theorem close_zero_entries_no_winner (t : UTCTime) (k : Nat) (db : DB)
    (h : entriesFor db (current_draw_id t) = []) :
    (close_current_draw t k db).1 = ⟨true, "Sorteo cerrado sin participantes.", none⟩ ∧
    ((close_current_draw t k db).2.draws.find? (fun x => x.draw_id == current_draw_id t)) =
      some ⟨current_draw_id t, (hour_window t).1, (hour_window t).2, "closed", 1000, 0,
            none, none, none⟩ := by
  unfold close_current_draw
  dsimp only
  rw [h]
  exact ⟨rfl, find?_upsertDrawFull _ _ _ rfl⟩

/-- Witness for C7: an empty store, draw of 2024-06-01 13:00 UTC. -/
theorem close_zero_entries_no_winner_witness :
    entriesFor ⟨[], [], 0⟩ (current_draw_id ⟨2024, 6, 1, 13, 0, 0⟩) = [] ∧
    ((close_current_draw ⟨2024, 6, 1, 13, 0, 0⟩ 0 ⟨[], [], 0⟩).1 =
        ⟨true, "Sorteo cerrado sin participantes.", none⟩ ∧
      ((close_current_draw ⟨2024, 6, 1, 13, 0, 0⟩ 0 ⟨[], [], 0⟩).2.draws.find?
          (fun x => x.draw_id == current_draw_id ⟨2024, 6, 1, 13, 0, 0⟩)) =
        some ⟨current_draw_id ⟨2024, 6, 1, 13, 0, 0⟩,
              (hour_window ⟨2024, 6, 1, 13, 0, 0⟩).1, (hour_window ⟨2024, 6, 1, 13, 0, 0⟩).2,
              "closed", 1000, 0, none, none, none⟩) :=
  ⟨rfl, close_zero_entries_no_winner ⟨2024, 6, 1, 13, 0, 0⟩ 0 ⟨[], [], 0⟩ rfl⟩

/-- C2: closing a draw whose loaded entry list is non-empty records
status=closed, entries_count equal to the number of loaded entries, and winner
fields taken from the entry at the uniformly-random index `k` (so each loaded
entry is the winner for exactly one value of the random index, independent of
insertion order); the response carries that winner's name and email. -/
theorem close_with_entries_picks_indexed_winner (t : UTCTime) (k : Nat) (db : DB)
    (hk : k < (entriesFor db (current_draw_id t)).length) :
    ∃ w : Entry,
      (entriesFor db (current_draw_id t))[k]? = some w ∧
      w ∈ entriesFor db (current_draw_id t) ∧
      (close_current_draw t k db).1 =
        ⟨true, "Sorteo cerrado y ganador elegido.", some (w.name, w.email)⟩ ∧
      ((close_current_draw t k db).2.draws.find? (fun x => x.draw_id == current_draw_id t)) =
        some ⟨current_draw_id t, (hour_window t).1, (hour_window t).2, "closed", 1000,
              (entriesFor db (current_draw_id t)).length, some w.id, some w.name,
              some w.email⟩ := by
  rcases hE : entriesFor db (current_draw_id t) with _ | ⟨e, rest⟩
  · rw [hE] at hk
    simp at hk
  · have hk' : k < (e :: rest).length := by rw [hE] at hk; exact hk
    have hmod : k % (e :: rest).length = k := Nat.mod_eq_of_lt hk'
    have hgd : (e :: rest).getD k e = (e :: rest)[k] := by
      rw [List.getD_eq_getElem?_getD, List.getElem?_eq_getElem hk']
      rfl
    refine ⟨(e :: rest).getD k e, ?_, ?_, ?_, ?_⟩
    · rw [List.getElem?_eq_getElem hk', hgd]
    · rw [hgd]
      exact List.getElem_mem hk'
    · unfold close_current_draw
      dsimp only
      rw [hE]
      dsimp only
      rw [hmod]
    · unfold close_current_draw
      dsimp only
      rw [hE]
      dsimp only
      rw [hmod]
      exact find?_upsertDrawFull _ _ _ rfl

/-- Witness for C2: two entries in the hour, random index 1. -/
theorem close_with_entries_picks_indexed_winner_witness :
    1 < (entriesFor ⟨[⟨0, "Ana", "a@x.com", "2024060113"⟩, ⟨1, "Bo", "b@x.com", "2024060113"⟩],
          [], 2⟩ (current_draw_id ⟨2024, 6, 1, 13, 0, 0⟩)).length ∧
    ∃ w : Entry,
      (entriesFor ⟨[⟨0, "Ana", "a@x.com", "2024060113"⟩, ⟨1, "Bo", "b@x.com", "2024060113"⟩],
        [], 2⟩ (current_draw_id ⟨2024, 6, 1, 13, 0, 0⟩))[1]? = some w ∧
      w ∈ entriesFor ⟨[⟨0, "Ana", "a@x.com", "2024060113"⟩, ⟨1, "Bo", "b@x.com", "2024060113"⟩],
            [], 2⟩ (current_draw_id ⟨2024, 6, 1, 13, 0, 0⟩) ∧
      (close_current_draw ⟨2024, 6, 1, 13, 0, 0⟩ 1
          ⟨[⟨0, "Ana", "a@x.com", "2024060113"⟩, ⟨1, "Bo", "b@x.com", "2024060113"⟩], [], 2⟩).1 =
        ⟨true, "Sorteo cerrado y ganador elegido.", some (w.name, w.email)⟩ ∧
      ((close_current_draw ⟨2024, 6, 1, 13, 0, 0⟩ 1
          ⟨[⟨0, "Ana", "a@x.com", "2024060113"⟩, ⟨1, "Bo", "b@x.com", "2024060113"⟩],
           [], 2⟩).2.draws.find?
          (fun x => x.draw_id == current_draw_id ⟨2024, 6, 1, 13, 0, 0⟩)) =
        some ⟨current_draw_id ⟨2024, 6, 1, 13, 0, 0⟩,
              (hour_window ⟨2024, 6, 1, 13, 0, 0⟩).1, (hour_window ⟨2024, 6, 1, 13, 0, 0⟩).2,
              "closed", 1000,
              (entriesFor ⟨[⟨0, "Ana", "a@x.com", "2024060113"⟩,
                  ⟨1, "Bo", "b@x.com", "2024060113"⟩], [], 2⟩
                (current_draw_id ⟨2024, 6, 1, 13, 0, 0⟩)).length,
              some w.id, some w.name, some w.email⟩ :=
  ⟨by decide, close_with_entries_picks_indexed_winner ⟨2024, 6, 1, 13, 0, 0⟩ 1 _ (by decide)⟩

/-- C3: admitting the same (draw_id, email) pair twice stores exactly one
entry: the first call creates the entry and returns its id, the second call in
the same hour fails with HTTP 400 and writes nothing. -/
theorem enter_twice_single_entry_then_duplicate (t₁ t₂ : UTCTime)
    (nm₁ nm₂ em : String) (db : DB)
    (ht : current_draw_id t₂ = current_draw_id t₁)
    (h0 : findEntry db (current_draw_id t₁) em = none) :
    ∃ db₁ : DB,
      enter_draw false t₁ nm₁ em db =
        .ok (⟨true, "¡Entraste al sorteo de esta hora!", db.nextId, current_draw_id t₁⟩, db₁) ∧
      countEntries db₁ (current_draw_id t₁) em = 1 ∧
      enter_draw false t₂ nm₂ em db₁ =
        .error ⟨400, "Ya estás participando en el sorteo de esta hora."⟩ := by
  refine ⟨(insertEntry db nm₁ em (current_draw_id t₁)).2, ?_, ?_, ?_⟩
  · unfold enter_draw
    rw [if_neg (by simp)]
    dsimp only
    rw [h0]
    rfl
  · rw [countEntries_insert, if_pos ⟨rfl, rfl⟩, (findEntry_eq_none_iff _ _ _).mp h0]
  · unfold enter_draw
    rw [if_neg (by simp)]
    dsimp only
    rw [ht, findEntry_insert_same db nm₁ em (current_draw_id t₁) h0]

/-- Witness for C3: an empty store and one participant in the 13:00 hour. -/
theorem enter_twice_single_entry_then_duplicate_witness :
    current_draw_id ⟨2024, 6, 1, 13, 30, 0⟩ = current_draw_id ⟨2024, 6, 1, 13, 0, 0⟩ ∧
    findEntry ⟨[], [], 0⟩ (current_draw_id ⟨2024, 6, 1, 13, 0, 0⟩) "a@x.com" = none ∧
    ∃ db₁ : DB,
      enter_draw false ⟨2024, 6, 1, 13, 0, 0⟩ "Ana" "a@x.com" ⟨[], [], 0⟩ =
        .ok (⟨true, "¡Entraste al sorteo de esta hora!", (0 : Nat),
              current_draw_id ⟨2024, 6, 1, 13, 0, 0⟩⟩, db₁) ∧
      countEntries db₁ (current_draw_id ⟨2024, 6, 1, 13, 0, 0⟩) "a@x.com" = 1 ∧
      enter_draw false ⟨2024, 6, 1, 13, 30, 0⟩ "Ana" "a@x.com" db₁ =
        .error ⟨400, "Ya estás participando en el sorteo de esta hora."⟩ :=
  ⟨by decide, rfl,
    enter_twice_single_entry_then_duplicate ⟨2024, 6, 1, 13, 0, 0⟩ ⟨2024, 6, 1, 13, 30, 0⟩
      "Ana" "Ana" "a@x.com" ⟨[], [], 0⟩ (by decide) rfl⟩

theorem current_draw_id_ne_empty (t : UTCTime) : (current_draw_id t == "") = false := by
  apply beq_eq_false_iff_ne.mpr
  intro h
  have hd : drawIdChars t = [] := congrArg String.data h
  unfold drawIdChars pad4 pad2 at hd
  simp at hd

theorem pyTruthy_some {s : String} (h : (s == "") = false) :
    pyTruthy (some s) = some s := by
  unfold pyTruthy
  dsimp only
  rw [h]
  rfl

theorem pyOr_some_of_ne {s : String} (h : (s == "") = false) (f : String) :
    pyOr (some s) f = s := by
  unfold pyOr
  rw [pyTruthy_some h]

theorem confirm_checkout_eq (t : UTCTime) (s : CheckoutSession) (db : DB)
    (hpaid : s.payment_status = "paid")
    {nm em : String}
    (hnm : pyTruthy s.metadata.name = some nm)
    (hem : pyTruthy s.metadata.email = some em) :
    confirm_checkout true t s db =
      (if (findEntry db (pyOr s.metadata.draw_id (current_draw_id t)) em).isSome then
        .ok (⟨true, "Pago confirmado. Ya estabas registrado en este sorteo.", none, none⟩, db)
      else
        .ok (⟨true, "Pago confirmado y participación registrada.",
              some db.nextId, some (pyOr s.metadata.draw_id (current_draw_id t))⟩,
             (insertEntry db nm em (pyOr s.metadata.draw_id (current_draw_id t))).2)) := by
  unfold confirm_checkout
  dsimp only
  rw [hpaid, hnm, hem]
  simp only [bne_self_eq_false, Bool.not_true, Bool.false_eq_true, if_false]
  rfl

theorem iterConfirm_count_one (t : UTCTime) (s : CheckoutSession) (nm em : String)
    (hpaid : s.payment_status = "paid")
    (hnm : pyTruthy s.metadata.name = some nm)
    (hem : pyTruthy s.metadata.email = some em) :
    ∀ (n : Nat) (db : DB),
      countEntries db (pyOr s.metadata.draw_id (current_draw_id t)) em = 1 →
      countEntries (iterConfirm true t s n db) (pyOr s.metadata.draw_id (current_draw_id t)) em = 1
  | 0, _, h => h
  | n + 1, db, h => by
    have hdup : (findEntry db (pyOr s.metadata.draw_id (current_draw_id t)) em).isSome := by
      rw [findEntry_isSome_iff, h]
      omega
    unfold iterConfirm confirmState
    rw [confirm_checkout_eq t s db hpaid hnm hem, if_pos hdup]
    exact iterConfirm_count_one t s nm em hpaid hnm hem n db h

/-- C5: payment confirmation is idempotent.  For a paid session whose metadata
names an (draw_id, email) already holding an entry, confirmation returns
success without writing; and starting from a store with no such entry,
any number n ≥ 1 of confirmations of the same session stores exactly one
entry in total. -/
theorem confirm_checkout_idempotent (t : UTCTime) (s : CheckoutSession)
    (nm em : String) (db₁ db₂ : DB) (n : Nat)
    (hpaid : s.payment_status = "paid")
    (hnm : pyTruthy s.metadata.name = some nm)
    (hem : pyTruthy s.metadata.email = some em)
    (hdup : (findEntry db₁ (pyOr s.metadata.draw_id (current_draw_id t)) em).isSome)
    (h0 : countEntries db₂ (pyOr s.metadata.draw_id (current_draw_id t)) em = 0)
    (hn : 1 ≤ n) :
    confirm_checkout true t s db₁ =
      .ok (⟨true, "Pago confirmado. Ya estabas registrado en este sorteo.", none, none⟩, db₁) ∧
    countEntries (iterConfirm true t s n db₂) (pyOr s.metadata.draw_id (current_draw_id t)) em
      = 1 := by
  constructor
  · rw [confirm_checkout_eq t s db₁ hpaid hnm hem, if_pos hdup]
  · obtain ⟨m, rfl⟩ : ∃ m, n = m + 1 := ⟨n - 1, by omega⟩
    have hnone : findEntry db₂ (pyOr s.metadata.draw_id (current_draw_id t)) em = none :=
      (findEntry_eq_none_iff _ _ _).mpr h0
    unfold iterConfirm confirmState
    rw [confirm_checkout_eq t s db₂ hpaid hnm hem, if_neg (by rw [hnone]; simp)]
    apply iterConfirm_count_one t s nm em hpaid hnm hem
    rw [countEntries_insert, if_pos ⟨rfl, rfl⟩, h0]

/-- Witness for C5: a paid session for draw 2024060113; db₁ already holds the
entry, db₂ is empty, n = 3 confirmations. -/
theorem confirm_checkout_idempotent_witness :
    (findEntry ⟨[⟨0, "Ana", "a@x.com", "2024060113"⟩], [], 1⟩
        (pyOr (some "2024060113") (current_draw_id ⟨2024, 6, 1, 13, 0, 0⟩)) "a@x.com").isSome ∧
    countEntries ⟨[], [], 0⟩
        (pyOr (some "2024060113") (current_draw_id ⟨2024, 6, 1, 13, 0, 0⟩)) "a@x.com" = 0 ∧
    (confirm_checkout true ⟨2024, 6, 1, 13, 0, 0⟩
        ⟨"paid", ⟨some "2024060113", some "Ana", some "a@x.com"⟩⟩
        ⟨[⟨0, "Ana", "a@x.com", "2024060113"⟩], [], 1⟩ =
      .ok (⟨true, "Pago confirmado. Ya estabas registrado en este sorteo.", none, none⟩,
           ⟨[⟨0, "Ana", "a@x.com", "2024060113"⟩], [], 1⟩) ∧
    countEntries (iterConfirm true ⟨2024, 6, 1, 13, 0, 0⟩
        ⟨"paid", ⟨some "2024060113", some "Ana", some "a@x.com"⟩⟩ 3 ⟨[], [], 0⟩)
        (pyOr (some "2024060113") (current_draw_id ⟨2024, 6, 1, 13, 0, 0⟩)) "a@x.com" = 1) :=
  ⟨by decide, by decide,
    confirm_checkout_idempotent ⟨2024, 6, 1, 13, 0, 0⟩
      ⟨"paid", ⟨some "2024060113", some "Ana", some "a@x.com"⟩⟩ "Ana" "a@x.com"
      ⟨[⟨0, "Ana", "a@x.com", "2024060113"⟩], [], 1⟩ ⟨[], [], 0⟩ 3
      rfl rfl rfl (by decide) (by decide) (by omega)⟩

/-- C4: the {draw_id, name, email} embedded in the session metadata at
checkout-start time are exactly the values used to create the entry at
confirmation; in particular the entry's draw_id is the hour current at
checkout time t₁, not at confirmation time t₂. -/
theorem checkout_metadata_roundtrip (t₁ t₂ : UTCTime) (nm em : String) (db db₂ : DB)
    (hnm : (nm == "") = false) (hem : (em == "") = false)
    (h₁ : findEntry db (current_draw_id t₁) em = none)
    (h₂ : findEntry db₂ (current_draw_id t₁) em = none) :
    create_checkout_session true t₁ nm em db =
      .ok ⟨"unpaid", ⟨some (current_draw_id t₁), some nm, some em⟩⟩ ∧
    confirm_checkout true t₂ ⟨"paid", ⟨some (current_draw_id t₁), some nm, some em⟩⟩ db₂ =
      .ok (⟨true, "Pago confirmado y participación registrada.", some db₂.nextId,
            some (current_draw_id t₁)⟩,
           (insertEntry db₂ nm em (current_draw_id t₁)).2) := by
  constructor
  · unfold create_checkout_session
    dsimp only
    rw [h₁]
    rfl
  · rw [confirm_checkout_eq t₂ ⟨"paid", ⟨some (current_draw_id t₁), some nm, some em⟩⟩ db₂
      rfl (pyTruthy_some hnm) (pyTruthy_some hem)]
    rw [pyOr_some_of_ne (current_draw_id_ne_empty t₁)] at *
    rw [if_neg (by rw [h₂]; simp)]

/-- Witness for C4: checkout in the 13:00 hour, confirmation in the 14:00 hour. -/
theorem checkout_metadata_roundtrip_witness :
    ("Ana" == "") = false ∧ ("a@x.com" == "") = false ∧
    findEntry ⟨[], [], 0⟩ (current_draw_id ⟨2024, 6, 1, 13, 0, 0⟩) "a@x.com" = none ∧
    findEntry ⟨[], [], 0⟩ (current_draw_id ⟨2024, 6, 1, 13, 0, 0⟩) "a@x.com" = none ∧
    (create_checkout_session true ⟨2024, 6, 1, 13, 0, 0⟩ "Ana" "a@x.com" ⟨[], [], 0⟩ =
      .ok ⟨"unpaid", ⟨some (current_draw_id ⟨2024, 6, 1, 13, 0, 0⟩), some "Ana", some "a@x.com"⟩⟩ ∧
    confirm_checkout true ⟨2024, 6, 1, 14, 30, 0⟩
        ⟨"paid", ⟨some (current_draw_id ⟨2024, 6, 1, 13, 0, 0⟩), some "Ana", some "a@x.com"⟩⟩
        ⟨[], [], 0⟩ =
      .ok (⟨true, "Pago confirmado y participación registrada.", some (0 : Nat),
            some (current_draw_id ⟨2024, 6, 1, 13, 0, 0⟩)⟩,
           (insertEntry ⟨[], [], 0⟩ "Ana" "a@x.com" (current_draw_id ⟨2024, 6, 1, 13, 0, 0⟩)).2)) :=
  ⟨rfl, rfl, rfl, rfl,
    checkout_metadata_roundtrip ⟨2024, 6, 1, 13, 0, 0⟩ ⟨2024, 6, 1, 14, 30, 0⟩ "Ana" "a@x.com"
      ⟨[], [], 0⟩ ⟨[], [], 0⟩ rfl rfl rfl rfl⟩

/-- C10: a paid session whose metadata has name and email but no draw_id does
not fail: confirmation substitutes the draw id of the hour current at
confirmation time and performs the duplicate check and the entry creation
under that substituted draw id. -/
theorem confirm_missing_draw_id_uses_current_hour (t : UTCTime) (nm em : String)
    (dbN dbD : DB) (e : Entry)
    (hnm : (nm == "") = false) (hem : (em == "") = false)
    (hN : findEntry dbN (current_draw_id t) em = none)
    (hD : findEntry dbD (current_draw_id t) em = some e) :
    confirm_checkout true t ⟨"paid", ⟨none, some nm, some em⟩⟩ dbN =
      .ok (⟨true, "Pago confirmado y participación registrada.", some dbN.nextId,
            some (current_draw_id t)⟩,
           (insertEntry dbN nm em (current_draw_id t)).2) ∧
    confirm_checkout true t ⟨"paid", ⟨none, some nm, some em⟩⟩ dbD =
      .ok (⟨true, "Pago confirmado. Ya estabas registrado en este sorteo.", none, none⟩,
           dbD) := by
  constructor
  · rw [confirm_checkout_eq t ⟨"paid", ⟨none, some nm, some em⟩⟩ dbN
      rfl (pyTruthy_some hnm) (pyTruthy_some hem)]
    rw [show pyOr none (current_draw_id t) = current_draw_id t from rfl] at *
    rw [if_neg (by rw [hN]; simp)]
  · rw [confirm_checkout_eq t ⟨"paid", ⟨none, some nm, some em⟩⟩ dbD
      rfl (pyTruthy_some hnm) (pyTruthy_some hem)]
    rw [show pyOr none (current_draw_id t) = current_draw_id t from rfl] at *
    rw [if_pos (by rw [hD]; rfl)]

/-- Witness for C10: sessions without draw_id confirmed against an empty store
and against a store already holding the entry. -/
theorem confirm_missing_draw_id_uses_current_hour_witness :
    ("Ana" == "") = false ∧ ("a@x.com" == "") = false ∧
    findEntry ⟨[], [], 0⟩ (current_draw_id ⟨2024, 6, 1, 13, 0, 0⟩) "a@x.com" = none ∧
    findEntry ⟨[⟨0, "Ana", "a@x.com", "2024060113"⟩], [], 1⟩
        (current_draw_id ⟨2024, 6, 1, 13, 0, 0⟩) "a@x.com" =
      some ⟨0, "Ana", "a@x.com", "2024060113"⟩ ∧
    (confirm_checkout true ⟨2024, 6, 1, 13, 0, 0⟩ ⟨"paid", ⟨none, some "Ana", some "a@x.com"⟩⟩
        ⟨[], [], 0⟩ =
      .ok (⟨true, "Pago confirmado y participación registrada.", some (0 : Nat),
            some (current_draw_id ⟨2024, 6, 1, 13, 0, 0⟩)⟩,
           (insertEntry ⟨[], [], 0⟩ "Ana" "a@x.com" (current_draw_id ⟨2024, 6, 1, 13, 0, 0⟩)).2) ∧
    confirm_checkout true ⟨2024, 6, 1, 13, 0, 0⟩ ⟨"paid", ⟨none, some "Ana", some "a@x.com"⟩⟩
        ⟨[⟨0, "Ana", "a@x.com", "2024060113"⟩], [], 1⟩ =
      .ok (⟨true, "Pago confirmado. Ya estabas registrado en este sorteo.", none, none⟩,
           ⟨[⟨0, "Ana", "a@x.com", "2024060113"⟩], [], 1⟩)) :=
  ⟨rfl, rfl, rfl, by decide,
    confirm_missing_draw_id_uses_current_hour ⟨2024, 6, 1, 13, 0, 0⟩ "Ana" "a@x.com"
      ⟨[], [], 0⟩ ⟨[⟨0, "Ana", "a@x.com", "2024060113"⟩], [], 1⟩
      ⟨0, "Ana", "a@x.com", "2024060113"⟩ rfl rfl rfl (by decide)⟩

/-- Counterexample to C6 as stated: a paid session whose metadata lacks
draw_id (but has name and email) is NOT rejected with HTTP 400 — confirmation
succeeds and creates an entry under the current hour. -/
theorem confirm_missing_draw_id_succeeds_cx :
    confirm_checkout true ⟨2024, 6, 1, 13, 0, 0⟩
        ⟨"paid", ⟨none, some "Ana", some "a@x.com"⟩⟩ ⟨[], [], 0⟩ =
      .ok (⟨true, "Pago confirmado y participación registrada.", some 0, some "2024060113"⟩,
           ⟨[⟨0, "Ana", "a@x.com", "2024060113"⟩], [], 1⟩) := rfl

/-- C6 (amended): confirm_checkout reads {draw_id, name, email} only from the
session metadata; a paid session with a missing (or empty) name or email fails
with HTTP 400 and writes nothing; a missing draw_id alone does not fail (see
the current-hour substitution, proved separately). -/
theorem confirm_rejects_missing_name_or_email (t : UTCTime) (s : CheckoutSession) (db : DB)
    (hpaid : s.payment_status = "paid")
    (hmiss : pyTruthy s.metadata.name = none ∨ pyTruthy s.metadata.email = none) :
    confirm_checkout true t s db = .error ⟨400, "Datos de participante incompletos"⟩ ∧
    confirmState true t s db = db := by
  have herr : confirm_checkout true t s db =
      .error ⟨400, "Datos de participante incompletos"⟩ := by
    unfold confirm_checkout
    dsimp only
    rw [hpaid]
    simp only [bne_self_eq_false, Bool.not_true, Bool.false_eq_true, if_false]
    rcases hn : pyTruthy s.metadata.name with _ | a <;>
      rcases he : pyTruthy s.metadata.email with _ | b
    · rfl
    · rfl
    · rfl
    · exfalso
      rcases hmiss with h | h
      · rw [h] at hn
        exact Option.noConfusion hn
      · rw [h] at he
        exact Option.noConfusion he
  refine ⟨herr, ?_⟩
  unfold confirmState
  rw [herr]

/-- Witness for C6 (amended): a paid session with an email but no name. -/
theorem confirm_rejects_missing_name_or_email_witness :
    (⟨"paid", ⟨some "2024060113", none, some "a@x.com"⟩⟩ : CheckoutSession).payment_status
      = "paid" ∧
    (pyTruthy (⟨"paid", ⟨some "2024060113", none, some "a@x.com"⟩⟩ :
        CheckoutSession).metadata.name = none ∨
      pyTruthy (⟨"paid", ⟨some "2024060113", none, some "a@x.com"⟩⟩ :
        CheckoutSession).metadata.email = none) ∧
    (confirm_checkout true ⟨2024, 6, 1, 13, 0, 0⟩
        ⟨"paid", ⟨some "2024060113", none, some "a@x.com"⟩⟩ ⟨[], [], 0⟩ =
      .error ⟨400, "Datos de participante incompletos"⟩ ∧
    confirmState true ⟨2024, 6, 1, 13, 0, 0⟩
        ⟨"paid", ⟨some "2024060113", none, some "a@x.com"⟩⟩ ⟨[], [], 0⟩ = ⟨[], [], 0⟩) :=
  ⟨rfl, Or.inl rfl,
    confirm_rejects_missing_name_or_email ⟨2024, 6, 1, 13, 0, 0⟩
      ⟨"paid", ⟨some "2024060113", none, some "a@x.com"⟩⟩ ⟨[], [], 0⟩ rfl (Or.inl rfl)⟩

theorem enterState_false_of_none (t : UTCTime) (nm em : String) (db : DB)
    (h : findEntry db (current_draw_id t) em = none) :
    enterState false t nm em db = (insertEntry db nm em (current_draw_id t)).2 := by
  unfold enterState enter_draw
  rw [if_neg (by simp)]
  dsimp only
  rw [h]

theorem enterState_false_of_some (t : UTCTime) (nm em : String) (db : DB) (e : Entry)
    (h : findEntry db (current_draw_id t) em = some e) :
    enterState false t nm em db = db := by
  unfold enterState enter_draw
  rw [if_neg (by simp)]
  dsimp only
  rw [h]

theorem enterState_true (t : UTCTime) (nm em : String) (db : DB) :
    enterState true t nm em db = db := rfl

/-- Counterexample to C9 as stated: two email strings that denote the same
case-normalised address ("Ana@x.com" and "ana@x.com") are both admitted for
the same draw — the second call is NOT rejected with DuplicateEntry, and two
entries end up stored. -/
theorem email_case_variant_admitted_cx :
    specNormalizeEmail "Ana@x.com" = specNormalizeEmail "ana@x.com" ∧
    enter_draw false ⟨2024, 6, 1, 13, 0, 0⟩ "Ana" "Ana@x.com" ⟨[], [], 0⟩ =
      .ok (⟨true, "¡Entraste al sorteo de esta hora!", 0, "2024060113"⟩,
           ⟨[⟨0, "Ana", "Ana@x.com", "2024060113"⟩], [], 1⟩) ∧
    enter_draw false ⟨2024, 6, 1, 13, 0, 0⟩ "Bo" "ana@x.com"
        ⟨[⟨0, "Ana", "Ana@x.com", "2024060113"⟩], [], 1⟩ =
      .ok (⟨true, "¡Entraste al sorteo de esta hora!", 1, "2024060113"⟩,
           ⟨[⟨0, "Ana", "Ana@x.com", "2024060113"⟩, ⟨1, "Bo", "ana@x.com", "2024060113"⟩],
            [], 2⟩) :=
  ⟨rfl, rfl, rfl⟩

/-- C9 (amended): per draw_id, at most one entry exists per exact email
string: admission rejects as DuplicateEntry a second entry whose email string
equals (byte-for-byte) an existing entry's email for that draw_id, and every
admission preserves the at-most-one-per-(draw_id, email-string) invariant.
Strings that differ in case count as distinct emails. -/
theorem enter_exact_email_uniqueness (pe : Bool) (t : UTCTime) (nm em : String)
    (db₁ db₂ : DB)
    (hdup : (findEntry db₁ (current_draw_id t) em).isSome)
    (hinv : atMostOnePerEmail db₂) :
    enter_draw false t nm em db₁ =
      .error ⟨400, "Ya estás participando en el sorteo de esta hora."⟩ ∧
    atMostOnePerEmail (enterState pe t nm em db₂) := by
  constructor
  · obtain ⟨e, he⟩ := Option.isSome_iff_exists.mp hdup
    unfold enter_draw
    rw [if_neg (by simp)]
    dsimp only
    rw [he]
  · cases pe
    · rcases hf : findEntry db₂ (current_draw_id t) em with _ | e
      · rw [enterState_false_of_none t nm em db₂ hf]
        intro d₂ em₂
        rw [countEntries_insert]
        by_cases hp : current_draw_id t = d₂ ∧ em = em₂
        · rw [if_pos hp]
          have h0 : countEntries db₂ (current_draw_id t) em = 0 :=
            (findEntry_eq_none_iff _ _ _).mp hf
          rw [← hp.1, ← hp.2]
          omega
        · rw [if_neg hp]
          have := hinv d₂ em₂
          omega
      · rw [enterState_false_of_some t nm em db₂ e hf]
        exact hinv
    · rw [enterState_true]
      exact hinv

/-- Witness for C9 (amended): a store holding the exact entry rejects it
again, and the invariant is preserved across an admission into an empty
store. -/
theorem enter_exact_email_uniqueness_witness :
    (findEntry ⟨[⟨0, "Ana", "a@x.com", "2024060113"⟩], [], 1⟩
        (current_draw_id ⟨2024, 6, 1, 13, 0, 0⟩) "a@x.com").isSome ∧
    atMostOnePerEmail ⟨[], [], 0⟩ ∧
    (enter_draw false ⟨2024, 6, 1, 13, 0, 0⟩ "Ana" "a@x.com"
        ⟨[⟨0, "Ana", "a@x.com", "2024060113"⟩], [], 1⟩ =
      .error ⟨400, "Ya estás participando en el sorteo de esta hora."⟩ ∧
    atMostOnePerEmail (enterState false ⟨2024, 6, 1, 13, 0, 0⟩ "Ana" "a@x.com" ⟨[], [], 0⟩)) :=
  ⟨by decide, fun d em => by simp [countEntries],
    enter_exact_email_uniqueness false ⟨2024, 6, 1, 13, 0, 0⟩ "Ana" "a@x.com"
      ⟨[⟨0, "Ana", "a@x.com", "2024060113"⟩], [], 1⟩ ⟨[], [], 0⟩ (by decide)
      (fun d em => by simp [countEntries])⟩

/-- C1 fails on the code: `close_current_draw` has no guard on an already
closed draw, so re-closing re-loads the entries and re-rolls the winner, and
`api_status` refreshes `entries_count` even on a closed draw.  Concretely: the
13:00 draw is closed with the single entry Ana (entries_count 1, winner Ana);
a second entry Bo is then admitted (the code does not check draw status); a
second close with random index 1 overwrites the record with entries_count 2
and winner Bo; and the status endpoint rewrites entries_count of the closed
draw from 1 to 2. -/
theorem close_reclose_rerolls_winner :
    ((close_current_draw ⟨2024, 6, 1, 13, 0, 0⟩ 0
        ⟨[⟨0, "Ana", "ana@x.com", "2024060113"⟩], [], 1⟩).2.draws.map
        (fun x => (x.status, x.entries_count, x.winner_email))) =
      [("closed", 1, some "ana@x.com")] ∧
    enter_draw false ⟨2024, 6, 1, 13, 0, 0⟩ "Bo" "bo@x.com"
        ((close_current_draw ⟨2024, 6, 1, 13, 0, 0⟩ 0
          ⟨[⟨0, "Ana", "ana@x.com", "2024060113"⟩], [], 1⟩).2) =
      .ok (⟨true, "¡Entraste al sorteo de esta hora!", 1, "2024060113"⟩,
           enterState false ⟨2024, 6, 1, 13, 0, 0⟩ "Bo" "bo@x.com"
             ((close_current_draw ⟨2024, 6, 1, 13, 0, 0⟩ 0
               ⟨[⟨0, "Ana", "ana@x.com", "2024060113"⟩], [], 1⟩).2)) ∧
    ((close_current_draw ⟨2024, 6, 1, 13, 0, 0⟩ 1
        (enterState false ⟨2024, 6, 1, 13, 0, 0⟩ "Bo" "bo@x.com"
          ((close_current_draw ⟨2024, 6, 1, 13, 0, 0⟩ 0
            ⟨[⟨0, "Ana", "ana@x.com", "2024060113"⟩], [], 1⟩).2))).2.draws.map
        (fun x => (x.status, x.entries_count, x.winner_email))) =
      [("closed", 2, some "bo@x.com")] ∧
    ((api_status ⟨2024, 6, 1, 13, 0, 0⟩
        (enterState false ⟨2024, 6, 1, 13, 0, 0⟩ "Bo" "bo@x.com"
          ((close_current_draw ⟨2024, 6, 1, 13, 0, 0⟩ 0
            ⟨[⟨0, "Ana", "ana@x.com", "2024060113"⟩], [], 1⟩).2))).2.draws.map
        (fun x => (x.status, x.entries_count))) =
      [("closed", 2)] :=
  ⟨rfl, rfl, rfl, rfl⟩

end Raffle
